import Mathlib

/-!
Verification of the JSON-LD serializer core (rdflib_jsonld/serializer.py)
against its natural-language specification.

The serializer converts an in-memory RDF graph into a JSON-LD value tree.
We embed the data model and the functions of serializer.py shallowly:
Python dynamic values become explicit inductive types, fallible code runs
in an Except monad over an explicit Python-exception type, and the
recursive value renderer takes a fuel parameter (Python would overflow the
stack on the corresponding inputs; fuel exhaustion is modelled as a
recursion error).

External collaborators (the context/term-mapping component of context.py
and the store's list-item iteration, neither of which is part of the
source under verification) are modelled from the specification's interface
descriptions; each such definition carries a doc comment saying so.
-/

namespace JsonLd

/-- RDF term: an IRI, a blank node, or a literal with optional datatype
IRI and optional language tag (mirrors rdflib's URIRef, BNode, Literal). -/
inductive Term where
  | iri (u : String)
  | bnode (b : String)
  | lit (value : String) (datatype : Option String) (language : Option String)
deriving DecidableEq, Repr

/-- JSON-LD value tree: string scalars, objects (ordered key-value maps)
and arrays, as produced by the serializer before text encoding. -/
inductive Value where
  | str (s : String)
  | obj (fields : List (String × Value))
  | arr (items : List Value)
deriving Repr

/-- Python exceptions that the embedded code can raise. -/
inductive PyErr where
  | keyError
  | typeError
  | indexError
  | attributeError
  | valueError
  | recursionError
deriving DecidableEq, Repr

/-- Dictionary result of building one node or graph object: an ordered
association list with unique keys (Python dict with insertion order). -/
abbrev Dict := List (String × Value)

/-- Python dict lookup d.get(k): the first binding of k, if any. -/
def dictGet (d : Dict) (k : String) : Option Value :=
  (d.find? (fun kv => kv.1 == k)).map (fun kv => kv.2)

/-- Python dict assignment d[k] = v: replaces the binding in place if the
key exists, otherwise appends it. -/
def dInsert (d : Dict) (k : String) (v : Value) : Dict :=
  match d with
  | [] => [(k, v)]
  | (k', v') :: rest => if k' == k then (k, v) :: rest else (k', v') :: dInsert rest k v

/-- Python dict.update(d2): assign every binding of d2 into d in order. -/
def dUpdate (d d2 : Dict) : Dict :=
  d2.foldl (fun acc kv => dInsert acc kv.1 kv.2) d

/-- Python truthiness of an optional string (None and the empty string are
falsy). -/
def optTruthy : Option String → Bool
  | none => false
  | some s => s ≠ ""

/-- Python unicode() applied to an optional value: None stringifies to the
four-character string "None". -/
def pyStrOpt : Option String → String
  | none => "None"
  | some s => s

/-- Python truthiness of a value found (or not) in a dict. -/
def valueTruthy : Option Value → Bool
  | none => false
  | some (.str s) => s ≠ ""
  | some (.obj l) => !l.isEmpty
  | some (.arr l) => !l.isEmpty

/-- RDF statement (subject, predicate, object); the predicate is an IRI
kept as a string. -/
abbrev Triple := Term × String × Term

/-- Graph: the statements the store exposes, in enumeration order. -/
abbrev Graph := List Triple

def rdfType : String := "http://www.w3.org/1999/02/22-rdf-syntax-ns#type"
def rdfFirst : String := "http://www.w3.org/1999/02/22-rdf-syntax-ns#first"
def rdfRest : String := "http://www.w3.org/1999/02/22-rdf-syntax-ns#rest"
def rdfNil : String := "http://www.w3.org/1999/02/22-rdf-syntax-ns#nil"

/-- RDF nil terminator as a term. -/
def nilTerm : Term := Term.iri rdfNil

/-- Store query surface: objects o with (s, p, o) in the graph. -/
def objectsOf (g : Graph) (s : Term) (p : String) : List Term :=
  g.filterMap (fun t => if t.1 = s ∧ t.2.1 = p then some t.2.2 else none)

/-- Store query surface: does any statement (s, rdf:first, _) exist?
Mirrors the membership test (subj, RDF.first, None) in graph. -/
def hasFirst (g : Graph) (s : Term) : Bool :=
  g.any (fun t => t.1 = s && t.2.1 = rdfFirst)

/-- Store query surface: is s the object of at least one statement?
Mirrors any(graph.subjects(None, s)). -/
def isReferenced (g : Graph) (s : Term) : Bool :=
  g.any (fun t => t.2.2 = s)

/-- Store query surface: the distinct subjects, first occurrence first.
Mirrors set(graph.subjects()). -/
def graphSubjects (g : Graph) : List Term :=
  (g.map (fun t => t.1)).eraseDups

/-- Store query surface: the (predicate, object) pairs for subject s, in
statement order. Mirrors graph.predicate_objects(s). -/
def predicateObjects (g : Graph) (s : Term) : List (String × Term) :=
  g.filterMap (fun t => if t.1 = s then some (t.2.1, t.2.2) else none)

/-- Appends object o to predicate p's group, keeping first-seen predicate
order, as the p_objs dict accumulation does. -/
def insertPO (groups : List (String × List Term)) (p : String) (o : Term) :
    List (String × List Term) :=
  match groups with
  | [] => [(p, [o])]
  | (p', os) :: rest =>
      if p' = p then (p', os ++ [o]) :: rest else (p', os) :: insertPO rest p o

/-- Groups a subject's (predicate, object) pairs per predicate, preserving
object multiplicity and order. -/
def groupPredicates (pairs : List (String × Term)) : List (String × List Term) :=
  pairs.foldl (fun acc po => insertPO acc po.1 po.2) []

/-- Declared term, as exposed by the term resolver: output key name,
optional fixed value type, optional container mode. -/
structure TermDecl where
  name : String
  type : Option String := none
  container : Option String := none
deriving DecidableEq, Repr

/-- Modelled from the spec: the context/term-mapping component
(context.py is not part of the source under verification). It carries the
has-context flag, the default language, prefix mappings used for IRI
compaction, the declared terms keyed by (predicate IRI, datatype
disambiguator), and the configured keyword aliases, which default to the
standard JSON-LD keywords. -/
structure Context where
  active : Bool
  language : Option String := none
  prefixes : List (String × String) := []
  terms : List ((String × Option String) × TermDecl) := []
  base : Option String := none
  id_key : String := "@id"
  type_key : String := "@type"
  value_key : String := "@value"
  lang_key : String := "@language"
  list_key : String := "@list"
  graph_key : String := "@graph"
deriving Repr

/-- Modelled from the spec: shrink(iri) compacts an absolute IRI per the
active context and returns the IRI unchanged if no compaction applies. -/
def Context.shrink (ctx : Context) (iri : String) : String :=
  match ctx.prefixes.find? (fun pn => pn.2 ≠ "" && iri.startsWith pn.2) with
  | some (pfx, ns) => pfx ++ ":" ++ iri.drop ns.length
  | none => iri

/-- Modelled from the spec: find_term(predicateIRI, datatypeIRIOrNone)
returns a declared term for a predicate, optionally disambiguated by the
shared literal datatype, or none. -/
def Context.findTerm (ctx : Context) (p : String) (dt : Option String) :
    Option TermDecl :=
  (ctx.terms.find? (fun e => e.1.1 == p && e.1.2 == dt)).map (fun e => e.2)

/-- Modelled from the spec: the store's list-item iteration following an
RDF list's first/rest chain (graph.items, an external collaborator).
Walks the chain from node, terminating at nil; a malformed chain (missing
rest link, multiple first values, or a cycle) is reported as none. The
fuel argument only bounds the walk; callers pass one more than the graph
size, which a non-cyclic chain can never exhaust. -/
def listChainAux (g : Graph) : Nat → List Term → Term → Option (List Term)
  | 0, _, _ => none
  | fuel + 1, visited, node =>
      if node = nilTerm then some []
      else
        match (objectsOf g node rdfFirst).eraseDups, (objectsOf g node rdfRest).eraseDups with
        | [f], [r] =>
            if visited.contains r then none
            else (listChainAux g fuel (r :: visited) r).map (fun tl => f :: tl)
        | _, _ => none

/-- Modelled from the spec: the full chain walk starting at node, with the
start node marked visited for cycle detection. -/
def listChain (g : Graph) (node : Term) : Option (List Term) :=
  listChainAux g (g.length + 1) [node] node

/-- List detection step of _to_collection: nil yields the empty sequence;
a node with a first statement is walked as a chain (a malformed walk is
the caught ValueError, reported as none); any other node is not a list. -/
def collectList (g : Graph) (subj : Term) : Option (List Term) :=
  if subj = nilTerm then some []
  else if hasFirst g subj then listChain g subj
  else none

/-- Blank-node label in N3 form, as BNode.n3() produces. -/
def bnodeN3 (b : String) : String := "_:" ++ b

/-- Maps a fallible function over a list, propagating the first error, as
a Python list comprehension does. -/
def mapExc {α β : Type} (f : α → Except PyErr β) : List α → Except PyErr (List β)
  | [] => .ok []
  | a :: as => do
      let b ← f a
      let bs ← mapExc f as
      .ok (b :: bs)

/-- Value renderer _to_raw_value: renders one RDF term as a JSON-LD value.
A materialized list becomes a list-key wrapper over its rendered
elements; a blank node or IRI becomes an id-key reference; a literal
becomes a language wrapper, a type wrapper, a value wrapper (no active
context), or a bare scalar. Fuel exhaustion models Python's recursion
limit on self-referential lists. -/
def toRawValue (g : Graph) (ctx : Context) : Nat → Term → Except PyErr Value
  | 0, _ => .error .recursionError
  | fuel + 1, o =>
      match collectList g o with
      | some ts =>
          (mapExc (fun t => toRawValue g ctx fuel t) ts).map
            (fun vs => .obj [(ctx.list_key, .arr vs)])
      | none =>
          match o with
          | .bnode b => .ok (.obj [(ctx.id_key, .str (bnodeN3 b))])
          | .iri u => .ok (.obj [(ctx.id_key, .str (ctx.shrink u))])
          | .lit v dt lang =>
              if optTruthy lang && (lang != ctx.language) then
                .ok (.obj [(ctx.lang_key, .str (lang.getD "")), (ctx.value_key, .str v)])
              else if optTruthy dt then
                .ok (.obj [(ctx.type_key, .str (ctx.shrink (dt.getD ""))), (ctx.value_key, .str v)])
              else if !ctx.active then .ok (.obj [(ctx.value_key, .str v)])
              else .ok (.str v)

/-- Shared-datatype computation of _handles_for_property (lines 187-194):
the first object's datatype is stringified with unicode(), so an absent
datatype becomes the string "None"; the remaining objects must be
literals whose datatype compares equal to that string (Python None never
equals a string), otherwise the result is None. -/
def sharedDatatype : List Term → Option String
  | [] => none
  | o :: rest =>
      match o with
      | .lit _ dt _ =>
          let d := pyStrOpt dt
          if rest.all (fun t =>
              match t with
              | .lit _ dt2 _ => match dt2 with | none => false | some s => s == d
              | _ => false)
          then some d else none
      | _ => none

/-- Python subscript v[k] with a string key: a dict yields the binding or
raises KeyError; subscripting a string or a list with a string key raises
TypeError. -/
def pyIndex (v : Value) (k : String) : Except PyErr Value :=
  match v with
  | .obj d =>
      match dictGet d k with
      | some x => .ok x
      | none => .error .keyError
  | .str _ => .error .typeError
  | .arr _ => .error .typeError

/-- Result of _handles_for_property: output key, cardinality flag, and
per-object rendering rule. -/
structure Handles where
  p_key : String
  many : Bool
  repr_rule : Term → Except PyErr Value

/-- Bare identifier rendering iri_to_id: an IRI is compacted, any other
term is passed through and JSON-encodes as its own string. -/
def iriToId (ctx : Context) : Term → Except PyErr Value
  | .iri u => .ok (.str (ctx.shrink u))
  | .bnode b => .ok (.str b)
  | .lit v _ _ => .ok (.str v)

/-- Python attribute access o.datatype: defined for a Literal, raises
AttributeError for URIRef and BNode. -/
def pyDatatypeAttr : Term → Except PyErr (Option String)
  | .lit _ dt _ => .ok dt
  | _ => .error .attributeError

/-- Per-value rendering rule of a found term before list unwrapping
(lines 203-209): fixed type id gives bare identifiers; any other fixed
type passes a literal through bare when its stringified datatype equals
the fixed type (reading the datatype attribute raises AttributeError on a
non-literal) and falls back to the full value renderer otherwise; without
a fixed type the full value renderer is used. -/
def termRepr0 (g : Graph) (ctx : Context) (fuel : Nat) (term : TermDecl) :
    Term → Except PyErr Value :=
  if optTruthy term.type then
    if term.type = some "@id" then iriToId ctx
    else fun o => do
      let dt ← pyDatatypeAttr o
      if pyStrOpt dt == term.type.getD "" then
        match o with
        | .lit v _ _ => .ok (.str v)
        | .iri u => .ok (.str u)
        | .bnode b => .ok (.str b)
      else toRawValue g ctx fuel o
  else toRawValue g ctx fuel

/-- Rendering rule of a found term: a list-container term additionally
subscripts each rendered value with the list key (the unwrap step at
lines 218-220). -/
def termReprRule (g : Graph) (ctx : Context) (fuel : Nat) (term : TermDecl) :
    Term → Except PyErr Value :=
  if term.container = some "@list" then
    fun o => do pyIndex (← termRepr0 g ctx fuel term o) ctx.list_key
  else termRepr0 g ctx fuel term

/-- Property shaper _handles_for_property: computes the shared datatype,
looks up a term, and decides output key, cardinality and rendering rule. -/
def handlesForProperty (g : Graph) (ctx : Context) (fuel : Nat) (p : String)
    (objs : List Term) : Handles :=
  match ctx.findTerm p (sharedDatatype objs) with
  | some term =>
      { p_key := term.name,
        many := if term.container = some "@set" then true else objs.length ≠ 1,
        repr_rule := termReprRule g ctx fuel term }
  | none =>
      if p = rdfType then
        { p_key := ctx.type_key, many := !ctx.active || objs.length != 1,
          repr_rule := iriToId ctx }
      else
        { p_key := ctx.shrink p, many := !ctx.active || objs.length != 1,
          repr_rule := toRawValue g ctx fuel }

/-- Renders a predicate group via _key_and_node: a single value when the
cardinality flag is off (indexing the first object), otherwise the array
of all rendered objects. -/
def keyAndNode (g : Graph) (ctx : Context) (fuel : Nat) (p : String)
    (objs : List Term) : Except PyErr (String × Value) := do
  let h := handlesForProperty g ctx fuel p objs
  if h.many then
    let vs ← mapExc h.repr_rule objs
    .ok (h.p_key, .arr vs)
  else
    match objs with
    | [] => .error .indexError
    | o :: _ => do
        let v ← h.repr_rule o
        .ok (h.p_key, v)

/-- Node builder _subject_to_node: the id key is set for an IRI subject,
or for a referenced blank node (N3 label); then every predicate group is
rendered and assigned. -/
def subjectToNode (g : Graph) (ctx : Context) (fuel : Nat) (s : Term) :
    Except PyErr Dict := do
  let current : Dict :=
    match s with
    | .iri u => [(ctx.id_key, .str (ctx.shrink u))]
    | .bnode b => if isReferenced g s then [(ctx.id_key, .str (bnodeN3 b))] else []
    | .lit _ _ _ => []
  let groups := groupPredicates (predicateObjects g s)
  groups.foldlM
    (fun cur po => do
      let kn ← keyAndNode g ctx fuel po.1 po.2
      .ok (dInsert cur kn.1 kn.2))
    current

/-- Top-level subject filter of _from_graph: an IRI, or a blank node with
no rdf:first statement (a blank list head is reached through whatever
references it, not emitted at top level). -/
def topSubjects (g : Graph) : List Term :=
  (graphSubjects g).filter
    (fun s =>
      match s with
      | .iri _ => true
      | .bnode _ => (objectsOf g s rdfFirst).isEmpty
      | .lit _ _ _ => false)

/-- Graph-level node enumeration _from_graph: builds one node object per
qualifying subject. -/
def fromGraph (g : Graph) (ctx : Context) (fuel : Nat) : Except PyErr (List Dict) :=
  mapExc (subjectToNode g ctx fuel) (topSubjects g)

/-- Named graph as the store exposes it: an identifier term and the
statements it holds. -/
structure NamedGraph where
  identifier : Term
  triples : Graph
deriving Repr

/-- Store handed to the entry point: either a plain single graph (not
context aware) or a dataset exposing sub-graphs; both carry the declared
prefix-namespace bindings consulted by auto compaction. -/
inductive Store where
  | simple (g : NamedGraph) (namespaces : List (String × String))
  | dataset (contexts : List NamedGraph) (namespaces : List (String × String))
deriving Repr

def Store.namespaces : Store → List (String × String)
  | .simple _ ns => ns
  | .dataset _ ns => ns

/-- Is this term an IRI (isinstance(x, URIRef))? -/
def Term.isIri : Term → Bool
  | .iri _ => true
  | _ => false

/-- Graph partition of from_rdf lines 96-106: a context-aware store
contributes a synthetic default graph holding every sub-graph whose
identifier is not an IRI, followed by the IRI-identified sub-graphs in
order; a plain store is the single graph itself. -/
def partitionGraphs : Store → List NamedGraph
  | .simple g _ => [g]
  | .dataset cs _ =>
      let defaultG : NamedGraph :=
        { identifier := Term.bnode "default"
          triples := (cs.filter (fun c => !c.identifier.isIri)).flatMap (fun c => c.triples) }
      defaultG :: cs.filter (fun c => c.identifier.isIri)

/-- Raw context data supplied by the caller: a mapping, embedded verbatim
into the output under the context keyword. -/
abbrev ContextData := List (String × String)

/-- Context data as a JSON-LD value, for verbatim embedding. -/
def ctxDataValue (cd : ContextData) : Value :=
  .obj (cd.map (fun pn => (pn.1, .str pn.2)))

/-- Python truthiness of the optional context data (None and the empty
mapping are falsy). -/
def cdTruthy : Option ContextData → Bool
  | none => false
  | some l => !l.isEmpty

/-- Modelled from the spec: construction of the active context from raw
context data (context.py is not part of the source under verification).
The has-context flag is set when a non-empty mapping is supplied; the
entries are kept as prefix mappings for IRI compaction. Parsing of term
declarations out of raw data belongs to the external component and is not
modelled; theorems that supply raw context data never consult terms. -/
def mkContext (cd : Option ContextData) (base : Option String) : Context :=
  match cd with
  | none => { active := false, base := base }
  | some l => { active := !l.isEmpty, prefixes := l, base := base }

/-- Context keyword under which supplied context data is embedded (the
CONTEXT constant of keys.py, quoted in the module docstring). -/
def contextKw : String := "@context"

/-- Reserved XML namespace excluded by auto compaction. -/
def xmlNamespace : String := "http://www.w3.org/XML/1998/namespace"

/-- Auto-derived context data of from_rdf lines 84-88: the store's
prefix-namespace bindings with anonymous prefixes and the reserved XML
namespace dropped (later duplicates overwrite, as building a dict does). -/
def deriveContextData (store : Store) : ContextData :=
  (store.namespaces.filter (fun pn => pn.1 ≠ "" && pn.2 ≠ xmlNamespace)).foldl
    (fun acc pn => if acc.any (fun q => q.1 = pn.1)
      then acc.map (fun q => if q.1 = pn.1 then pn else q)
      else acc ++ [pn])
    []

/-- Comparison objs[0].get(id_key) == graphname of the merge rule: both
absent compares true; a stored string compares by value. -/
def idMatches (d : Dict) (ctx : Context) (graphname : Option String) : Bool :=
  match dictGet d ctx.id_key, graphname with
  | none, none => true
  | some (.str s), some gn => s == gn
  | _, _ => false

/-- Graph name of the loop (lines 113-116): the compacted identifier of
an IRI-identified graph, absent otherwise. -/
def graphnameOf (ctx : Context) (g : NamedGraph) : Option String :=
  match g.identifier with
  | .iri u => some (ctx.shrink u)
  | _ => none

/-- Per-graph body of the from_rdf loop (lines 111-129): builds the graph
object, flattens a single anonymous node into it, wraps nodes under the
graph key in expanded form (skipping an empty graph), and merges into the
first collected object when its identifier matches. -/
def fromRdfStep (ctx : Context) (contextData : Option ContextData)
    (useExpanded : Bool) (objs : List Dict) (g : NamedGraph) :
    Except PyErr (List Dict) := do
  let graphname : Option String := graphnameOf ctx g
  let obj0 : Dict :=
    match graphname with
    | some gn => [(ctx.id_key, .str gn)]
    | none => []
  let obj1 : Dict :=
    if cdTruthy contextData then
      dInsert obj0 contextKw (ctxDataValue (contextData.getD []))
    else obj0
  let nodes ← fromGraph g.triples ctx (g.triples.length + 1)
  let emitted : Option Dict :=
    if graphname = none ∧ nodes.length = 1 then
      some (dUpdate obj1 (nodes.headD []))
    else if useExpanded then
      if nodes.isEmpty then none
      else some (dInsert obj1 ctx.graph_key (.arr (nodes.map Value.obj)))
    else some obj1
  match emitted with
  | none => .ok objs
  | some obj =>
      match objs with
      | [] => .ok [obj]
      | o0 :: rest =>
          if idMatches o0 ctx graphname then .ok (dUpdate o0 obj :: rest)
          else .ok (objs ++ [obj])

/-- Entry point from_rdf: derives context data when requested, builds the
active context, partitions the store, runs the per-graph loop, and
collapses the result (lines 130-135): with a single collected object in
compacted form, or a single-graph store, the first object is taken
(IndexError when there is none), and a trivial single-graph-key wrapper
is replaced by the array under it. The useNativeTypes, startnode and
index options are accepted and have no effect (TODO at line 82). -/
def fromRdf (store : Store) (contextDataIn : Option ContextData)
    (base : Option String) (useNativeTypes : Bool := false)
    (autoCompact : Bool := false) (startnode : Option Term := none)
    (index : Bool := false) : Except PyErr Value := do
  let contextData : Option ContextData :=
    if !cdTruthy contextDataIn && autoCompact then some (deriveContextData store)
    else contextDataIn
  let ctx := mkContext contextData base
  let graphs := partitionGraphs store
  let useExpanded := !ctx.active
  let objs ← graphs.foldlM (fun objs g => fromRdfStep ctx contextData useExpanded objs g) []
  if (objs.length = 1 && !useExpanded) || graphs.length = 1 then
    match objs with
    | [] => .error .indexError
    | o :: _ =>
        let items := dictGet o ctx.graph_key
        if o.length = 1 && valueTruthy items then .ok (items.getD (.str ""))
        else .ok (.obj o)
  else
    .ok (.arr (objs.map Value.obj))

/-! Helper lemmas about the dictionary operations and the assembler. -/

theorem graphnameOf_eq_none (ctx : Context) (g : NamedGraph)
    (h : g.identifier.isIri = false) : graphnameOf ctx g = none := by
  unfold graphnameOf
  cases hg : g.identifier with
  | iri u => rw [hg] at h; simp [Term.isIri] at h
  | bnode b => rfl
  | lit v dt l => rfl

theorem dInsert_of_not_mem (d : Dict) (k : String) (v : Value)
    (h : k ∉ d.map Prod.fst) : dInsert d k v = d ++ [(k, v)] := by
  induction d with
  | nil => rfl
  | cons kv rest ih =>
      simp only [List.map_cons, List.mem_cons] at h
      push_neg at h
      simp only [dInsert, beq_iff_eq]
      rw [if_neg (by exact fun hc => h.1 hc.symm)]
      simp [ih h.2]

theorem foldl_dInsert_append (n : List (String × Value)) :
    ∀ acc : Dict, (∀ k, k ∈ n.map Prod.fst → k ∉ acc.map Prod.fst) →
    (n.map Prod.fst).Nodup →
    n.foldl (fun acc kv => dInsert acc kv.1 kv.2) acc = acc ++ n := by
  induction n with
  | nil => intro acc _ _; simp
  | cons kv rest ih =>
      intro acc hdisj hnodup
      simp only [List.foldl_cons]
      rw [dInsert_of_not_mem acc kv.1 kv.2 (hdisj kv.1 (by simp))]
      rw [ih (acc ++ [(kv.1, kv.2)]) ?_ ?_]
      · simp
      · intro k hk
        simp only [List.map_append, List.mem_append, List.map_cons] at *
        rintro (hka | hkv)
        · exact hdisj k (by simp [hk]) hka
        · simp only [List.map_nil, List.mem_singleton] at hkv
          subst hkv
          simp only [List.map_cons, List.nodup_cons] at hnodup
          exact hnodup.1 hk
      · simp only [List.map_cons, List.nodup_cons] at hnodup
        exact hnodup.2

theorem dUpdate_nil (n : Dict) (h : (n.map Prod.fst).Nodup) :
    dUpdate [] n = n := by
  have := foldl_dInsert_append n [] (by simp) h
  simpa [dUpdate] using this

/-! Claim C4: the shared datatype passed to term lookup. -/

/-- C4 counterexample: for a single literal carrying no datatype, the
claim requires the term lookup to receive none, but the code stringifies
the absent datatype with unicode() and the lookup receives the
four-character string "None" instead. -/
theorem C4_counterexample :
    sharedDatatype [Term.lit "x" none none] = some "None" := rfl

/-- C4 amended: the shared datatype handed to find_term is the common
datatype IRI when every object is a literal carrying that same (present)
datatype; it is none when the first object is not a literal, when any
later object is not a literal carrying the first object's stringified
datatype (covering a later non-literal, a differing datatype and a
missing datatype alike), and in particular when two or more literals all
lack a datatype; but a single literal with no datatype yields the string
"None" (the stringified absent datatype) rather than none. -/
theorem C4_amended :
    (∀ v l d rest, (∀ t, t ∈ rest → ∃ v' l', t = Term.lit v' (some d) l') →
        sharedDatatype (Term.lit v (some d) l :: rest) = some d)
    ∧ (∀ v l, sharedDatatype [Term.lit v none l] = some "None")
    ∧ (∀ v dt l rest t, t ∈ rest →
        (∀ v' l', t ≠ Term.lit v' (some (pyStrOpt dt)) l') →
        sharedDatatype (Term.lit v dt l :: rest) = none)
    ∧ (∀ v l v' l' rest,
        sharedDatatype (Term.lit v none l :: Term.lit v' none l' :: rest) = none)
    ∧ (∀ u objs, sharedDatatype (Term.iri u :: objs) = none)
    ∧ (∀ b objs, sharedDatatype (Term.bnode b :: objs) = none) := by
  refine ⟨?_, ?_, ?_, ?_, ?_, ?_⟩
  · intro v l d rest hrest
    simp only [sharedDatatype, pyStrOpt]
    rw [if_pos]
    rw [List.all_eq_true]
    intro t ht
    obtain ⟨v', l', rfl⟩ := hrest t ht
    simp
  · intro v l; rfl
  · intro v dt l rest t hmem hne
    simp only [sharedDatatype]
    rw [if_neg]
    intro hall
    rw [List.all_eq_true] at hall
    have hpt := hall t hmem
    cases t with
    | iri u => simp at hpt
    | bnode b => simp at hpt
    | lit v' dt2 l' =>
        cases dt2 with
        | none => simp at hpt
        | some s =>
            simp only [beq_iff_eq] at hpt
            exact hne v' l' (by rw [hpt])
  · intro v l v' l' rest
    simp [sharedDatatype, pyStrOpt]
  · intro u objs; rfl
  · intro b objs; rfl

/-- C4 amended witness at concrete inputs: a shared present datatype, the
stringified absent datatype, a differing later datatype and a later
non-literal. -/
theorem C4_amended_witness :
    sharedDatatype [Term.lit "x" (some "http://d") none,
      Term.lit "y" (some "http://d") (some "en")] = some "http://d" ∧
    sharedDatatype [Term.lit "x" none none] = some "None" ∧
    sharedDatatype [Term.lit "x" (some "http://dA") none,
      Term.lit "y" (some "http://dB") none] = none ∧
    sharedDatatype [Term.lit "x" (some "http://dA") none,
      Term.iri "http://e/o"] = none :=
  ⟨C4_amended.1 "x" none "http://d" [Term.lit "y" (some "http://d") (some "en")]
      (by intro t ht
          simp only [List.mem_singleton] at ht
          exact ⟨"y", some "en", ht⟩),
    C4_amended.2.1 "x" none,
    C4_amended.2.2.1 "x" (some "http://dA") none
      [Term.lit "y" (some "http://dB") none] (Term.lit "y" (some "http://dB") none)
      (by simp) (by intro v' l' h; simp [pyStrOpt] at h),
    C4_amended.2.2.1 "x" (some "http://dA") none
      [Term.iri "http://e/o"] (Term.iri "http://e/o")
      (by simp) (by intro v' l' h; simp at h)⟩

/-! Claim C5: top-level subject enumeration. -/

/-- C5: a subject of the graph is enumerated as a top-level node exactly
when it is an IRI, or a blank node that is the subject of no rdf:first
statement (list heads are excluded). -/
theorem C5_top_level_subjects (g : Graph) (s : Term) (hs : s ∈ graphSubjects g) :
    s ∈ topSubjects g ↔
      ((∃ u, s = Term.iri u) ∨
        ((∃ b, s = Term.bnode b) ∧ objectsOf g s rdfFirst = [])) := by
  unfold topSubjects
  rw [List.mem_filter]
  constructor
  · rintro ⟨-, hcond⟩
    cases s with
    | iri u => exact Or.inl ⟨u, rfl⟩
    | bnode b =>
        refine Or.inr ⟨⟨b, rfl⟩, ?_⟩
        simpa [List.isEmpty_iff] using hcond
    | lit v dt l => simp at hcond
  · rintro (⟨u, rfl⟩ | ⟨⟨b, rfl⟩, hfirst⟩)
    · exact ⟨hs, rfl⟩
    · exact ⟨hs, by simp [List.isEmpty_iff, hfirst]⟩

/-- C5 witness: in a two-statement graph, the IRI subject is enumerated
and satisfies the characterization. -/
theorem C5_top_level_subjects_witness :
    Term.iri "http://e/s" ∈
        topSubjects [(Term.iri "http://e/s", "http://e/p", Term.bnode "a"),
          (Term.bnode "a", rdfFirst, Term.lit "x" none none)] ↔
      ((∃ u, Term.iri "http://e/s" = Term.iri u) ∨
        ((∃ b, Term.iri "http://e/s" = Term.bnode b) ∧
          objectsOf [(Term.iri "http://e/s", "http://e/p", Term.bnode "a"),
            (Term.bnode "a", rdfFirst, Term.lit "x" none none)]
            (Term.iri "http://e/s") rdfFirst = [])) :=
  C5_top_level_subjects _ _ (by
    show Term.iri "http://e/s" ∈ graphSubjects _
    decide)

/-! Claim C7: language-tagged literal rendering. -/

/-- C7: a literal whose language tag differs from the context's default
language renders as a language-plus-value wrapper; a literal whose tag
equals the active context's default language (and which carries no
datatype, per the literal invariant) renders as the bare value. -/
theorem C7_language_rendering (g : Graph) (ctx : Context) (fuel : Nat)
    (v : String) (dt : Option String) (l : String)
    (hcoll : collectList g (Term.lit v dt (some l)) = none) :
    ((l ≠ "" → some l ≠ ctx.language →
        toRawValue g ctx (fuel + 1) (Term.lit v dt (some l)) =
          .ok (.obj [(ctx.lang_key, .str l), (ctx.value_key, .str v)]))
      ∧ (ctx.language = some l → dt = none → ctx.active = true →
        toRawValue g ctx (fuel + 1) (Term.lit v dt (some l)) = .ok (.str v))) := by
  constructor
  · intro hl hne
    simp only [toRawValue, hcoll]
    rw [if_pos]
    simp only [Option.getD_some]
    simp [optTruthy, hl, bne_iff_ne, hne]
  · intro hlang hdt hactive
    subst hdt
    simp only [toRawValue, hcoll]
    rw [if_neg, if_neg]
    · simp [hactive]
    · simp [optTruthy]
    · rw [hlang]
      simp [optTruthy]

/-- C7 witness: with default language en, a fr-tagged literal is wrapped
and an en-tagged literal is bare. -/
theorem C7_language_rendering_witness :
    (toRawValue [] { active := true, language := some "en" } 1
        (Term.lit "hi" none (some "fr")) =
      .ok (.obj [("@language", .str "fr"), ("@value", .str "hi")]))
    ∧ (toRawValue [] { active := true, language := some "en" } 1
        (Term.lit "hi" none (some "en")) = .ok (.str "hi")) :=
  ⟨(C7_language_rendering [] { active := true, language := some "en" } 0
      "hi" none "fr" rfl).1 (by decide) (by decide),
    (C7_language_rendering [] { active := true, language := some "en" } 0
      "hi" none "en" rfl).2 rfl rfl rfl⟩

/-! Claim C8: datatyped literal rendering. -/

/-- C8: a literal with a datatype (and no language tag differing from the
default language) renders as a type-plus-value wrapper holding the
compacted datatype IRI and the lexical value; this holds for every
datatype, including string, boolean and number, with no special-casing. -/
theorem C8_datatype_rendering (g : Graph) (ctx : Context) (fuel : Nat)
    (v : String) (d : String) (lang : Option String)
    (hcoll : collectList g (Term.lit v (some d) lang) = none)
    (hd : d ≠ "")
    (hlang : (optTruthy lang && (lang != ctx.language)) = false) :
    toRawValue g ctx (fuel + 1) (Term.lit v (some d) lang) =
      .ok (.obj [(ctx.type_key, .str (ctx.shrink d)), (ctx.value_key, .str v)]) := by
  simp only [toRawValue, hcoll]
  rw [if_neg (by simp [hlang]), if_pos (by simp [optTruthy, hd])]
  simp

/-- C8 witness: the xsd:string datatype is surfaced like any other. -/
theorem C8_datatype_rendering_witness :
    toRawValue [] { active := true } 1
        (Term.lit "x" (some "http://www.w3.org/2001/XMLSchema#string") none) =
      .ok (.obj [("@type", .str "http://www.w3.org/2001/XMLSchema#string"),
        ("@value", .str "x")]) :=
  C8_datatype_rendering [] { active := true } 0 "x"
    "http://www.w3.org/2001/XMLSchema#string" none rfl (by decide) rfl

/-! Claim C2: malformed list chains. -/

/-- C2 counterexample: on the specification's own malformed-list input, a
graph holding only the statement (blank node a, rdf:first, "x") with no
context supplied, the whole conversion raises an IndexError rather than
never raising: the list-head blank node is excluded from top-level
enumeration, the graph then contributes no nodes, and the final collapse
indexes the first element of an empty list. -/
theorem C2_counterexample :
    fromRdf
        (Store.simple
          { identifier := Term.bnode "g"
            triples := [(Term.bnode "a", rdfFirst, Term.lit "x" none none)] } [])
        none none =
      .error .indexError := rfl

/-- C2 amended: when the chain walk from a blank node reports a malformed
chain, the value renderer falls back to an ordinary id-key reference with
no list-key wrapper (and raises nothing); but such a node is only reached
in object position, it is never emitted as a top-level node, and the
whole conversion can still raise an index error on such input when the
graph yields no top-level nodes and no context is supplied. -/
theorem C2_amended (g : Graph) (ctx : Context) (fuel : Nat) (b : String)
    (hchain : listChain g (Term.bnode b) = none) :
    toRawValue g ctx (fuel + 1) (Term.bnode b) =
      .ok (.obj [(ctx.id_key, .str (bnodeN3 b))]) := by
  have hcoll : collectList g (Term.bnode b) = none := by
    unfold collectList
    rw [if_neg (by simp [nilTerm])]
    cases hf : hasFirst g (Term.bnode b) <;> simp [hchain]
  simp [toRawValue, hcoll]

/-- C2 amended witness: the one-statement malformed chain renders as a
plain blank-node reference in object position. -/
theorem C2_amended_witness :
    toRawValue [(Term.bnode "a", rdfFirst, Term.lit "x" none none)]
        { active := true } 1 (Term.bnode "a") =
      .ok (.obj [("@id", .str "_:a")]) :=
  C2_amended [(Term.bnode "a", rdfFirst, Term.lit "x" none none)]
    { active := true } 0 "a" rfl

/-! Claim C1: key and cardinality for an undeclared, non-type predicate. -/

/-- C1 counterexample: with no active context, no declared term and
exactly one object, the claim predicts a single bare value, but the code
produces an array (of length one): the cardinality flag is forced
whenever the context is absent. -/
theorem C1_counterexample :
    keyAndNode [] (mkContext none none) 1 "http://e/p" [Term.iri "http://e/o"] =
      .ok ("http://e/p", .arr [.obj [("@id", .str "http://e/o")]]) := rfl

/-- C1 amended: for a predicate group with no declared term and a
predicate other than rdf:type, the output key is the compacted predicate
IRI and the cardinality is an array unless a context is active and there
is exactly one object (an active context with a single object gives a
bare value; an absent context always forces arrays); in particular two
objects on one predicate give an array of length two regardless of
context presence. -/
theorem C1_amended (g : Graph) (ctx : Context) (fuel : Nat) (p : String)
    (objs : List Term)
    (hterm : ctx.findTerm p (sharedDatatype objs) = none)
    (hp : p ≠ rdfType) :
    (handlesForProperty g ctx fuel p objs).p_key = ctx.shrink p
    ∧ (handlesForProperty g ctx fuel p objs).many = (!ctx.active || objs.length != 1)
    ∧ (∀ o1 o2 v1 v2, objs = [o1, o2] →
        toRawValue g ctx fuel o1 = .ok v1 → toRawValue g ctx fuel o2 = .ok v2 →
        keyAndNode g ctx fuel p objs = .ok (ctx.shrink p, .arr [v1, v2])) := by
  refine ⟨?_, ?_, ?_⟩
  · simp [handlesForProperty, hterm, hp]
  · simp [handlesForProperty, hterm, hp]
  · rintro o1 o2 v1 v2 rfl h1 h2
    simp [keyAndNode, handlesForProperty, hterm, hp, mapExc, h1, h2, Bind.bind,
      Except.bind]

/-- C1 amended witness: two literal objects under an active context give
an array of length two. -/
theorem C1_amended_witness :
    keyAndNode [] { active := true } 1 "http://e/p"
        [Term.lit "a" none none, Term.lit "b" none none] =
      .ok ("http://e/p", .arr [.str "a", .str "b"]) :=
  (C1_amended [] { active := true } 1 "http://e/p"
      [Term.lit "a" none none, Term.lit "b" none none] rfl (by decide)).2.2
    (Term.lit "a" none none) (Term.lit "b" none none) (.str "a") (.str "b")
    rfl rfl rfl

/-! Claim C3: the useNativeTypes, startnode and index options. -/

/-- C3 counterexample: calling the entry point with every unsupported
option set to a non-default value surfaces no configuration error; the
conversion runs to completion and produces the same tree as a default
call would. -/
theorem C3_counterexample :
    fromRdf
        (Store.simple
          { identifier := Term.bnode "g"
            triples := [(Term.iri "http://e/s", "http://e/p", Term.lit "x" none none)] } [])
        none none true false (some (Term.iri "http://e/s")) true =
      .ok (.obj [("@id", .str "http://e/s"),
        ("http://e/p", .arr [.obj [("@value", .str "x")]])]) := rfl

/-- C3 amended: the useNativeTypes, startnode and index options are
accepted and silently ignored; every call produces exactly the tree of
the corresponding default-option call, and no configuration error is ever
raised on their account. -/
theorem C3_amended (store : Store) (cd : Option ContextData) (base : Option String)
    (unt ac idx : Bool) (sn : Option Term) :
    fromRdf store cd base unt ac sn idx = fromRdf store cd base false ac none false := rfl

/-! Claim C9: list-container unwrapping of a value that is not a list. -/

/-- Auxiliary for C9: when a term does not materialize as a list, its
full rendering is an identifier, language, type or value wrapper or a
bare scalar, and subscripting that with the list key raises KeyError or
TypeError (assuming the keyword aliases are distinct). -/
theorem pyIndex_toRawValue_errors (g : Graph) (ctx : Context) (fuel : Nat) (o : Term)
    (hcoll : collectList g o = none)
    (h1 : ctx.list_key ≠ ctx.id_key) (h2 : ctx.list_key ≠ ctx.lang_key)
    (h3 : ctx.list_key ≠ ctx.value_key) (h4 : ctx.list_key ≠ ctx.type_key) :
    ∃ e, (toRawValue g ctx (fuel + 1) o >>= fun v => pyIndex v ctx.list_key) =
      .error e := by
  have hid : (ctx.id_key == ctx.list_key) = false := beq_eq_false_iff_ne.mpr (Ne.symm h1)
  have hlangb : (ctx.lang_key == ctx.list_key) = false := beq_eq_false_iff_ne.mpr (Ne.symm h2)
  have hvalb : (ctx.value_key == ctx.list_key) = false := beq_eq_false_iff_ne.mpr (Ne.symm h3)
  have htypeb : (ctx.type_key == ctx.list_key) = false := beq_eq_false_iff_ne.mpr (Ne.symm h4)
  cases o with
  | bnode b =>
      exact ⟨.keyError, by
        simp [toRawValue, hcoll, Bind.bind, Except.bind, pyIndex, dictGet,
          List.find?, hid]⟩
  | iri u =>
      exact ⟨.keyError, by
        simp [toRawValue, hcoll, Bind.bind, Except.bind, pyIndex, dictGet,
          List.find?, hid]⟩
  | lit v dt lang =>
      simp only [toRawValue, hcoll]
      cases hc1 : optTruthy lang && (lang != ctx.language) with
      | true =>
          exact ⟨.keyError, by
            simp [hc1, Bind.bind, Except.bind, pyIndex, dictGet, List.find?,
              hlangb, hvalb]⟩
      | false =>
          cases hc2 : optTruthy dt with
          | true =>
              exact ⟨.keyError, by
                simp [hc1, hc2, Bind.bind, Except.bind, pyIndex, dictGet,
                  List.find?, htypeb, hvalb]⟩
          | false =>
              cases hc3 : ctx.active with
              | false =>
                  exact ⟨.keyError, by
                    simp [hc1, hc2, hc3, Bind.bind, Except.bind, pyIndex,
                      dictGet, List.find?, hvalb]⟩
              | true =>
                  exact ⟨.typeError, by
                    simp [hc1, hc2, hc3, Bind.bind, Except.bind, pyIndex]⟩

/-- C9: a predicate resolved to a term with list container mode, applied
to a leading object that does not materialize as an RDF list, raises an
exception from the list-key subscript of the rendered value (KeyError on
a wrapper object, TypeError on a bare scalar, AttributeError when a fixed
non-id type reads a datatype off a non-literal); the not-a-list fallback
does not protect list-container properties, so rendering is not total. -/
theorem C9_list_container_raises (g : Graph) (ctx : Context) (fuel : Nat)
    (p : String) (o : Term) (rest : List Term) (t : TermDecl)
    (hterm : ctx.findTerm p (sharedDatatype (o :: rest)) = some t)
    (hlist : t.container = some "@list")
    (hcoll : collectList g o = none)
    (h1 : ctx.list_key ≠ ctx.id_key) (h2 : ctx.list_key ≠ ctx.lang_key)
    (h3 : ctx.list_key ≠ ctx.value_key) (h4 : ctx.list_key ≠ ctx.type_key) :
    ∃ e, keyAndNode g ctx (fuel + 1) p (o :: rest) = .error e := by
  have hrep : ∃ e, termReprRule g ctx (fuel + 1) t o = .error e := by
    unfold termReprRule
    rw [if_pos hlist]
    unfold termRepr0
    by_cases hty : optTruthy t.type = true
    · rw [if_pos hty]
      by_cases hisid : t.type = some "@id"
      · rw [if_pos hisid]
        cases o with
        | iri u => exact ⟨.typeError, by simp [iriToId, Bind.bind, Except.bind, pyIndex]⟩
        | bnode b => exact ⟨.typeError, by simp [iriToId, Bind.bind, Except.bind, pyIndex]⟩
        | lit v dtl langl => exact ⟨.typeError, by simp [iriToId, Bind.bind, Except.bind, pyIndex]⟩
      · rw [if_neg hisid]
        cases o with
        | iri u =>
            exact ⟨.attributeError, by simp [pyDatatypeAttr, Bind.bind, Except.bind]⟩
        | bnode b =>
            exact ⟨.attributeError, by simp [pyDatatypeAttr, Bind.bind, Except.bind]⟩
        | lit v dtl langl =>
            cases hmatch : (pyStrOpt dtl == t.type.getD "") with
            | true =>
                exact ⟨.typeError, by
                  simp [pyDatatypeAttr, Bind.bind, Except.bind, hmatch, pyIndex]⟩
            | false =>
                obtain ⟨e, he⟩ :=
                  pyIndex_toRawValue_errors g ctx fuel (Term.lit v dtl langl)
                    hcoll h1 h2 h3 h4
                refine ⟨e, ?_⟩
                simp only [pyDatatypeAttr, Bind.bind, Except.bind, hmatch]
                simpa [Bind.bind, Except.bind] using he
    · rw [if_neg hty]
      obtain ⟨e, he⟩ := pyIndex_toRawValue_errors g ctx fuel o hcoll h1 h2 h3 h4
      exact ⟨e, by simpa [Bind.bind, Except.bind] using he⟩
  obtain ⟨e, he⟩ := hrep
  have hnotset : ¬(t.container = some "@set") := by rw [hlist]; simp
  refine ⟨e, ?_⟩
  cases rest with
  | nil =>
      simp [keyAndNode, handlesForProperty, hterm, hnotset, he, Bind.bind,
        Except.bind]
  | cons r rs =>
      simp [keyAndNode, handlesForProperty, hterm, hnotset, mapExc, he,
        Bind.bind, Except.bind]

/-! Claim C6: flattening a single anonymous graph with a single node. -/

/-- Auxiliary for C6: the per-graph step on an anonymous graph yielding a
single node, with no supplied context data, merges the node into the
empty graph object. -/
theorem fromRdfStep_anon_single (ctx : Context) (useExpanded : Bool)
    (g : NamedGraph) (n : Dict)
    (hid : g.identifier.isIri = false)
    (hnodes : fromGraph g.triples ctx (g.triples.length + 1) = .ok [n]) :
    fromRdfStep ctx none useExpanded [] g = .ok [dUpdate [] n] := by
  unfold fromRdfStep
  rw [graphnameOf_eq_none ctx g hid, hnodes]
  simp [cdTruthy, Bind.bind, Except.bind]

/-- C6: a store whose partition is a single graph with a non-IRI
identifier, converting without supplied context to exactly one top-level
node, yields that node's object directly, with no graph-key wrapper (the
node's keys are merged into the empty graph object). The node is assumed
not to compact a predicate onto the graph keyword, and its keys are
unique by construction. -/
theorem C6_single_node_flatten (store : Store) (g : NamedGraph) (n : Dict)
    (base : Option String)
    (hpart : partitionGraphs store = [g])
    (hid : g.identifier.isIri = false)
    (hnodes : fromGraph g.triples (mkContext none base) (g.triples.length + 1) = .ok [n])
    (hnodup : (n.map Prod.fst).Nodup)
    (hgk : dictGet n (mkContext none base).graph_key = none) :
    fromRdf store none base = .ok (.obj n) := by
  have hstep := fromRdfStep_anon_single (mkContext none base) true g n hid hnodes
  rw [dUpdate_nil n hnodup] at hstep
  have hact : (mkContext none base).active = false := rfl
  unfold fromRdf
  rw [hpart]
  simp [cdTruthy, List.foldlM, Bind.bind, Except.bind, Pure.pure, Except.pure,
    hact, hstep, hgk, valueTruthy]

/-- C6 witness: a one-statement plain store collapses to the bare node
object. -/
theorem C6_single_node_flatten_witness :
    fromRdf
        (Store.simple
          { identifier := Term.bnode "g"
            triples := [(Term.iri "http://e/s", "http://e/p", Term.lit "x" none none)] } [])
        none none =
      .ok (.obj [("@id", .str "http://e/s"),
        ("http://e/p", .arr [.obj [("@value", .str "x")]])]) :=
  C6_single_node_flatten
    (Store.simple
      { identifier := Term.bnode "g"
        triples := [(Term.iri "http://e/s", "http://e/p", Term.lit "x" none none)] } [])
    { identifier := Term.bnode "g"
      triples := [(Term.iri "http://e/s", "http://e/p", Term.lit "x" none none)] }
    [("@id", .str "http://e/s"),
      ("http://e/p", .arr [.obj [("@value", .str "x")]])]
    none rfl rfl rfl (by decide) rfl

/-! Claim C10: the empty store. -/

/-- C10: a store with no statements (exposing a single anonymous graph)
raises IndexError when converted with no supplied context, because the
final collapse indexes the first element of the empty output list; the
same call with a non-empty supplied context returns an object holding
only the context key. -/
theorem C10_empty_store (store : Store) (g : NamedGraph) (cd : ContextData)
    (base : Option String)
    (hpart : partitionGraphs store = [g])
    (hid : g.identifier.isIri = false)
    (hempty : g.triples = [])
    (hcd : cd ≠ []) :
    fromRdf store none base = .error .indexError
    ∧ fromRdf store (some cd) base = .ok (.obj [(contextKw, ctxDataValue cd)]) := by
  constructor
  · unfold fromRdf
    rw [hpart]
    simp [mkContext, cdTruthy, List.foldlM, Bind.bind, Except.bind, Pure.pure,
      Except.pure, fromRdfStep, graphnameOf_eq_none, hid, hempty, fromGraph,
      topSubjects, graphSubjects, mapExc]
  · unfold fromRdf
    rw [hpart]
    have hcde : cd.isEmpty = false := by
      cases cd with
      | nil => exact absurd rfl hcd
      | cons a l => rfl
    have hck : ("@context" == "@graph") = false := rfl
    simp [mkContext, cdTruthy, hcde, List.foldlM, Bind.bind, Except.bind,
      Pure.pure, Except.pure, fromRdfStep, graphnameOf_eq_none, hid, hempty,
      fromGraph, topSubjects, graphSubjects, mapExc, dInsert, dictGet,
      valueTruthy, contextKw, List.find?, hck]

/-- C10 witness: the empty plain store. -/
theorem C10_empty_store_witness :
    fromRdf (Store.simple { identifier := Term.bnode "g", triples := [] } [])
        none none = .error .indexError
    ∧ fromRdf (Store.simple { identifier := Term.bnode "g", triples := [] } [])
        (some [("ex", "http://e/")]) none =
      .ok (.obj [("@context", .obj [("ex", .str "http://e/")])]) :=
  C10_empty_store
    (Store.simple { identifier := Term.bnode "g", triples := [] } [])
    { identifier := Term.bnode "g", triples := [] }
    [("ex", "http://e/")] none rfl rfl rfl (by decide)

/-- C9 witness: a list-container term over an IRI object that heads no
list raises a KeyError at the unwrap step. -/
theorem C9_list_container_raises_witness :
    ∃ e, keyAndNode []
        { active := true,
          terms := [(("http://e/p", none),
            { name := "elems", container := some "@list" })] }
        1 "http://e/p" [Term.iri "http://e/o"] = .error e :=
  C9_list_container_raises [] _ 0 "http://e/p" (Term.iri "http://e/o") []
    { name := "elems", container := some "@list" }
    rfl rfl rfl (by decide) (by decide) (by decide) (by decide)

end JsonLd
